import Mathlib

/-
Shallow embedding of tomcur/cpy-walker (Rust): a CPython 2.7 remote-memory
object-graph walker.  Translated from:
  src/memory.rs        (Memory trait: byte reads, u16 vectors, C strings)
  src/interpreter.rs   (Pointer, TryDeref, TupleItems/ListItems iterators)
  src/cpython27/mod.rs (layout decoders, downcast, attributes, dict entries)
  src/walker.rs        (step, walk)
Machine integers are Nat/Int with explicit wrapping at 2^64 where the Rust
code wraps.  Struct layout constants come from generated bindings that are
not part of the source tree; they are pinned below and marked as modelled
from the spec.
-/

deriving instance DecidableEq for Except

namespace CpyWalker

/-- 2^64, the modulus of the 64-bit address space (usize). -/
def U64 : Nat := 18446744073709551616

/-- 2^63, the signed/unsigned boundary of a 64-bit word. -/
def I63 : Nat := 9223372036854775808

/-- Wrap a natural number into the 64-bit address space (wrapping usize add). -/
def wrap (n : Nat) : Nat := n % U64

/-- Reinterpret a 64-bit unsigned word as a signed word (`as isize`). -/
def toIsize (n : Nat) : Int := if n < I63 then (n : Int) else (n : Int) - (U64 : Int)

/-- Reinterpret a signed integer as a 64-bit unsigned word (`as usize`). -/
def intToUsize (i : Int) : Nat := (i % (U64 : Int)).toNat

/-- Error type from src/error.rs.  `SegmentationFault` wraps its cause; the
model carries the cause as a string. -/
inductive PyError where
  | SegmentationFault (cause : String)
  | NullPointer
  | Decode
  deriving DecidableEq, Repr

/-- Target memory: a read-only, address-indexed byte store (`Memory::get_vec`
is the sole primitive).  `none` at an address means the address is not
readable there. -/
abbrev Mem : Type := Nat → Option Nat

/-- Read `size` bytes starting at `address` (Memory::get_vec).  A short read
is a failure: every byte must be readable, otherwise the whole read fails
with a segmentation fault wrapping the cause. -/
def getVec (mem : Mem) (address size : Nat) : Except PyError (List Nat) :=
  go address size
where
  go (a : Nat) : Nat → Except PyError (List Nat)
    | 0 => .ok []
    | n + 1 =>
      match mem a with
      | none => .error (.SegmentationFault "read")
      | some b => (go (a + 1) n).map (b :: ·)

/-- Memory::get_u8. -/
def getU8 (mem : Mem) (address : Nat) : Except PyError Nat :=
  (getVec mem address 1).map (List.headD · 0)

/-- Memory::get_u16_vec, byte-for-byte from src/memory.rs lines 17-29: odd
sizes fail with a segmentation-fault-kind error carrying the cause
"must be multiple of 2"; otherwise `size/2` values are produced, the value
at index `idx` being `u16::from_le_bytes([vec[idx], vec[idx + 1]])`. -/
def getU16Vec (mem : Mem) (address size : Nat) : Except PyError (List Nat) :=
  if size % 2 ≠ 0 then
    .error (.SegmentationFault "must be multiple of 2")
  else
    (getVec mem address size).map fun vec =>
      (List.range (size / 2)).map fun idx => vec.getD idx 0 + 256 * vec.getD (idx + 1) 0

/-- Little-endian value of a byte list (`from_le_bytes`). -/
def leBytes : List Nat → Nat
  | [] => 0
  | b :: bs => b + 256 * leBytes bs

/-- Little-endian 64-bit field of a byte block at byte offset `off`. -/
def le64get (bs : List Nat) (off : Nat) : Nat := leBytes ((bs.drop off).take 8)

/-- Memory::get_u64 (little-endian). -/
def getU64 (mem : Mem) (address : Nat) : Except PyError Nat :=
  (getVec mem address 8).map leBytes

/-- Memory::get_usize (64-bit target word). -/
def getUsize (mem : Mem) (address : Nat) : Except PyError Nat := getU64 mem address

/-- Memory::get_isize: the 64-bit word reinterpreted as signed. -/
def getIsize (mem : Mem) (address : Nat) : Except PyError Int :=
  (getU64 mem address).map toIsize

/-- Loop of Memory::get_c_str: read bytes at successive addresses until a
NUL byte or until the length bound runs out; every byte is passed through
unchanged as a codepoint (the model keeps the raw byte list). -/
def getCStrLoop (mem : Mem) (address : Nat) : Nat → Except PyError (List Nat)
  | 0 => .ok []
  | n + 1 =>
    match getU8 mem address with
    | .error e => .error e
    | .ok 0 => .ok []
    | .ok b => (getCStrLoop mem (address + 1) n).map (b :: ·)

/-- Memory::get_c_str: `max_length = none` means a bound of usize::MAX. -/
def getCStr (mem : Mem) (address : Nat) (maxLength : Option Nat) : Except PyError (List Nat) :=
  getCStrLoop mem address (maxLength.getD U64)

/-- Pointer::deref_c_str: null-check the address (Pointer::address_checked),
then read the C string. -/
def derefCStr (mem : Mem) (address : Nat) (maxLength : Option Nat) :
    Except PyError (List Nat) :=
  if address = 0 then .error .NullPointer else getCStr mem address maxLength

/-- Pointer + isize (Add<isize> for Pointer): two's-complement wrapping add
in the 64-bit address space. -/
def wrapAddInt (base : Nat) (off : Int) : Nat := intToUsize ((base : Int) + off)

/-- A concrete memory built from a list of (base address, bytes) regions,
for the concrete runs below; addresses outside every region are unreadable. -/
def mkMem (regions : List (Nat × List Nat)) : Mem := fun a =>
  regions.findSome? fun r =>
    if r.1 ≤ a ∧ a < r.1 + r.2.length then some (r.2.getD (a - r.1) 0) else none

/-- The 8 little-endian bytes of a 64-bit word value. -/
def le64 (v : Nat) : List Nat :=
  [v % 256, v / 256 % 256, v / 65536 % 256, v / 16777216 % 256,
   v / 4294967296 % 256, v / 1099511627776 % 256,
   v / 281474976710656 % 256, v / 72057594037927936 % 256]

/-
Struct layouts.  The concrete offsets and struct sizes come from the
generated `bindings` module and the `python27_sys` crate, neither of which
is in the source tree.  Modelled from the spec (section 3, "Raw object
headers"; 64-bit little-endian words): ObjectHead is refcount + type
pointer (2 words); VarHead adds a signed size word; TypeHead continues
with name pointer, basicsize, itemsize, dictoffset; StringHead is VarHead
+ hash + state + inline characters; ClassHead is ObjectHead + bases +
dict + name pointers; InstanceHead is ObjectHead + class + dict pointers;
DictHead is ObjectHead + fill + used + mask + table pointer; a dict entry
is (hash, key pointer, value pointer).
-/

/-- Modelled from the spec: sizeof(bindings::PyObject) — 2 words. -/
def pyObjectSize : Nat := 16

/-- Modelled from the spec: sizeof(bindings::PyVarObject) — 3 words. -/
def pyVarObjectSize : Nat := 24

/-- Modelled from the spec: sizeof(bindings::PyTypeObject); the decoder uses
only the fields through tp_dictoffset, pinned at words 3..6 of the head. -/
def pyTypeObjectSize : Nat := 56

/-- Modelled from the spec: sizeof(bindings::PyStringObject) — VarHead +
hash word + 4-byte state + first inline character, padded. -/
def pyStringObjectSize : Nat := 40

/-- Modelled from the spec: offsetof(bindings::PyStringObject, ob_sval) —
the inline character array starts after VarHead + hash + state. -/
def obSvalOffset : Nat := 36

/-- Modelled from the spec: sizeof(bindings::PyTupleObject) — VarHead + one
inline element slot. -/
def pyTupleObjectSize : Nat := 32

/-- Modelled from the spec: offsetof(bindings::PyTupleObject, ob_item) —
the inline element array starts right after VarHead. -/
def obItemOffset : Nat := 24

/-- Modelled from the spec: sizeof(bindings::PyListObject) — VarHead +
ob_item pointer + allocated word. -/
def pyListObjectSize : Nat := 40

/-- Modelled from the spec: sizeof(bindings::PyDictObject) through the
fields the decoder uses — ObjectHead + fill + used + mask + table pointer. -/
def pyDictObjectSize : Nat := 48

/-- Modelled from the spec: sizeof(bindings::PyDictEntry) — hash, key
pointer, value pointer. -/
def pyDictEntrySize : Nat := 24

/-- Modelled from the spec: sizeof(bindings::PyIntObject) — ObjectHead +
signed long value (bools use the same layout). -/
def pyIntObjectSize : Nat := 24

/-- Modelled from the spec: sizeof(bindings::PyFloatObject) — ObjectHead +
64-bit IEEE-754 value. -/
def pyFloatObjectSize : Nat := 24

/-- Modelled from the spec: sizeof(python27_sys::PyInstanceObject) —
ObjectHead + class pointer + dict pointer. -/
def pyInstanceObjectSize : Nat := 32

/-- Modelled from the spec: sizeof(python27_sys::PyClassObject) through the
fields the decoder uses — ObjectHead + cl_bases + cl_dict + cl_name. -/
def pyClassObjectSize : Nat := 40

/-- PyObject (src/cpython27/mod.rs): origin pointer plus the generic header
fields read from target memory. -/
structure PyObjectS where
  me : Nat
  refcnt : Nat
  obType : Nat
  deriving DecidableEq, Repr

/-- PyTypeObject: origin, header fields, and the eagerly resolved type name
(read as a C string of at most 1000 bytes from tp_name). -/
structure PyTypeObjectS where
  me : Nat
  refcnt : Nat
  obType : Nat
  obSize : Int
  tpName : Nat
  name : List Nat
  basicsize : Int
  itemsize : Int
  dictoffset : Int
  deriving DecidableEq, Repr

/-- PyVarObject: generic header plus the signed size word. -/
structure PyVarObjectS where
  me : Nat
  refcnt : Nat
  obType : Nat
  obSize : Int
  deriving DecidableEq, Repr

/-- PyNoneObject: the bare generic header. -/
structure PyNoneObjectS where
  me : Nat
  refcnt : Nat
  obType : Nat
  deriving DecidableEq, Repr

/-- PyClassObject: header fields plus the eagerly read class name (cl_name
points at a string object on the target, read via StringObject::read). -/
structure PyClassObjectS where
  me : Nat
  refcnt : Nat
  obType : Nat
  clBases : Nat
  clDict : Nat
  clName : Nat
  name : List Nat
  deriving DecidableEq, Repr

/-- PyInstanceObject: header plus in_class and in_dict pointers. -/
structure PyInstanceObjectS where
  me : Nat
  refcnt : Nat
  obType : Nat
  inClass : Nat
  inDict : Nat
  deriving DecidableEq, Repr

/-- PyStringObject (also the layout the code reuses for unicode objects). -/
structure PyStringObjectS where
  me : Nat
  refcnt : Nat
  obType : Nat
  obSize : Int
  deriving DecidableEq, Repr

/-- PyUnicodeObject: the code hackily reuses the string layout. -/
structure PyUnicodeObjectS where
  me : Nat
  refcnt : Nat
  obType : Nat
  obSize : Int
  deriving DecidableEq, Repr

/-- PyTupleObject header. -/
structure PyTupleObjectS where
  me : Nat
  refcnt : Nat
  obType : Nat
  obSize : Int
  deriving DecidableEq, Repr

/-- PyListObject header: ob_item is a pointer to the element array. -/
structure PyListObjectS where
  me : Nat
  refcnt : Nat
  obType : Nat
  obSize : Int
  obItem : Nat
  deriving DecidableEq, Repr

/-- PyDictObject header. -/
structure PyDictObjectS where
  me : Nat
  refcnt : Nat
  obType : Nat
  maFill : Int
  maUsed : Int
  maMask : Int
  maTable : Nat
  deriving DecidableEq, Repr

/-- PyIntObject header (bools share it). -/
structure PyIntObjectS where
  me : Nat
  refcnt : Nat
  obType : Nat
  obIval : Int
  deriving DecidableEq, Repr

/-- PyFloatObject header; the model carries the raw 64 bits of ob_fval. -/
structure PyFloatObjectS where
  me : Nat
  refcnt : Nat
  obType : Nat
  obFvalBits : Nat
  deriving DecidableEq, Repr

/-- TryDeref for PyObject: read sizeof(PyObject) bytes and reinterpret. -/
def derefPyObject (mem : Mem) (addr : Nat) : Except PyError PyObjectS :=
  (getVec mem addr pyObjectSize).map fun bs =>
    { me := addr, refcnt := le64get bs 0, obType := le64get bs 8 }

/-- Pointer::try_deref_me for PyObject: null pointers fail without reading. -/
def tryDerefPyObject (mem : Mem) (addr : Nat) : Except PyError PyObjectS :=
  if addr = 0 then .error .NullPointer else derefPyObject mem addr

/-- TryDeref for Pointer: read one word and interpret it as an address. -/
def tryDerefPointer (mem : Mem) (addr : Nat) : Except PyError Nat :=
  if addr = 0 then .error .NullPointer else getUsize mem addr

/-- TryDeref for PyTypeObject: read the type head, then eagerly resolve
tp_name to a string of at most 1000 bytes (deref_c_str null-checks it). -/
def derefPyType (mem : Mem) (addr : Nat) : Except PyError PyTypeObjectS := do
  let bs ← getVec mem addr pyTypeObjectSize
  let tpName := le64get bs 24
  let name ← derefCStr mem tpName (some 1000)
  .ok { me := addr, refcnt := le64get bs 0, obType := le64get bs 8,
        obSize := toIsize (le64get bs 16), tpName := tpName, name := name,
        basicsize := toIsize (le64get bs 32), itemsize := toIsize (le64get bs 40),
        dictoffset := toIsize (le64get bs 48) }

/-- Pointer::try_deref_me for PyTypeObject. -/
def tryDerefPyType (mem : Mem) (addr : Nat) : Except PyError PyTypeObjectS :=
  if addr = 0 then .error .NullPointer else derefPyType mem addr

/-- TryDeref for PyVarObject. -/
def tryDerefPyVarObject (mem : Mem) (addr : Nat) : Except PyError PyVarObjectS :=
  if addr = 0 then .error .NullPointer else
    (getVec mem addr pyVarObjectSize).map fun bs =>
      { me := addr, refcnt := le64get bs 0, obType := le64get bs 8,
        obSize := toIsize (le64get bs 16) }

/-- TryDeref for PyNoneObject. -/
def tryDerefPyNone (mem : Mem) (addr : Nat) : Except PyError PyNoneObjectS :=
  if addr = 0 then .error .NullPointer else
    (getVec mem addr pyObjectSize).map fun bs =>
      { me := addr, refcnt := le64get bs 0, obType := le64get bs 8 }

/-- TryDeref for PyStringObject. -/
def tryDerefPyString (mem : Mem) (addr : Nat) : Except PyError PyStringObjectS :=
  if addr = 0 then .error .NullPointer else
    (getVec mem addr pyStringObjectSize).map fun bs =>
      { me := addr, refcnt := le64get bs 0, obType := le64get bs 8,
        obSize := toIsize (le64get bs 16) }

/-- PyStringObject::read_bytes: ob_size bytes starting at the inline
character array at origin + offsetof(ob_sval). -/
def pyStringReadBytes (mem : Mem) (s : PyStringObjectS) : Except PyError (List Nat) :=
  getVec mem (wrap (s.me + obSvalOffset)) (intToUsize s.obSize)

/-- StringObject::read: from_utf8_lossy over read_bytes.  The model keeps
the raw byte list (the walker only matches on the String variant and uses
the text as an attribute key; lossy UTF-8 repair is not modelled). -/
def pyStringRead (mem : Mem) (s : PyStringObjectS) : Except PyError (List Nat) :=
  pyStringReadBytes mem s

/-- TryDeref for PyUnicodeObject (string layout reused). -/
def tryDerefPyUnicode (mem : Mem) (addr : Nat) : Except PyError PyUnicodeObjectS :=
  if addr = 0 then .error .NullPointer else
    (getVec mem addr pyStringObjectSize).map fun bs =>
      { me := addr, refcnt := le64get bs 0, obType := le64get bs 8,
        obSize := toIsize (le64get bs 16) }

/-- PyUnicodeObject::read_bytes: the code reads `ob_size` bytes at
`(&self.object.ob_sval as *const [i8; 1]) as usize`, the address of the
ob_sval field of the walker's own local copy of the header, not an address
derived from the object's origin.  That host address is not a function of
target memory; it enters the model as the unconstrained parameter `ha`. -/
def pyUnicodeReadBytes (mem : Mem) (ha : Nat) (u : PyUnicodeObjectS) :
    Except PyError (List Nat) :=
  getVec mem ha (intToUsize u.obSize)

/-- PyUnicodeObject::read: get_u16_vec over the same host-local address and
`ob_size` byte count, then from_utf16_lossy.  The model keeps the list of
16-bit code units (lossy UTF-16 repair is not modelled). -/
def pyUnicodeRead (mem : Mem) (ha : Nat) (u : PyUnicodeObjectS) :
    Except PyError (List Nat) :=
  getU16Vec mem ha (intToUsize u.obSize)

/-- TryDeref for PyTupleObject. -/
def tryDerefPyTuple (mem : Mem) (addr : Nat) : Except PyError PyTupleObjectS :=
  if addr = 0 then .error .NullPointer else
    (getVec mem addr pyTupleObjectSize).map fun bs =>
      { me := addr, refcnt := le64get bs 0, obType := le64get bs 8,
        obSize := toIsize (le64get bs 16) }

/-- TryDeref for PyListObject. -/
def tryDerefPyList (mem : Mem) (addr : Nat) : Except PyError PyListObjectS :=
  if addr = 0 then .error .NullPointer else
    (getVec mem addr pyListObjectSize).map fun bs =>
      { me := addr, refcnt := le64get bs 0, obType := le64get bs 8,
        obSize := toIsize (le64get bs 16), obItem := le64get bs 24 }

/-- TryDeref for PyDictObject. -/
def tryDerefPyDict (mem : Mem) (addr : Nat) : Except PyError PyDictObjectS :=
  if addr = 0 then .error .NullPointer else
    (getVec mem addr pyDictObjectSize).map fun bs =>
      { me := addr, refcnt := le64get bs 0, obType := le64get bs 8,
        maFill := toIsize (le64get bs 16), maUsed := toIsize (le64get bs 24),
        maMask := toIsize (le64get bs 32), maTable := le64get bs 40 }

/-- TryDeref for PyIntObject (and PyBoolObject, which shares the layout). -/
def tryDerefPyInt (mem : Mem) (addr : Nat) : Except PyError PyIntObjectS :=
  if addr = 0 then .error .NullPointer else
    (getVec mem addr pyIntObjectSize).map fun bs =>
      { me := addr, refcnt := le64get bs 0, obType := le64get bs 8,
        obIval := toIsize (le64get bs 16) }

/-- TryDeref for PyFloatObject. -/
def tryDerefPyFloat (mem : Mem) (addr : Nat) : Except PyError PyFloatObjectS :=
  if addr = 0 then .error .NullPointer else
    (getVec mem addr pyFloatObjectSize).map fun bs =>
      { me := addr, refcnt := le64get bs 0, obType := le64get bs 8,
        obFvalBits := le64get bs 16 }

/-- TryDeref for PyInstanceObject. -/
def tryDerefPyInstance (mem : Mem) (addr : Nat) : Except PyError PyInstanceObjectS :=
  if addr = 0 then .error .NullPointer else
    (getVec mem addr pyInstanceObjectSize).map fun bs =>
      { me := addr, refcnt := le64get bs 0, obType := le64get bs 8,
        inClass := le64get bs 16, inDict := le64get bs 24 }

/-- TryDeref for PyClassObject: read the class head, then eagerly read
cl_name as a string object (try_deref_me::<StringObject> followed by
StringObject::read). -/
def derefPyClass (mem : Mem) (addr : Nat) : Except PyError PyClassObjectS := do
  let bs ← getVec mem addr pyClassObjectSize
  let clName := le64get bs 32
  let s ← tryDerefPyString mem clName
  let name ← pyStringRead mem s
  .ok { me := addr, refcnt := le64get bs 0, obType := le64get bs 8,
        clBases := le64get bs 16, clDict := le64get bs 24,
        clName := clName, name := name }

/-- Pointer::try_deref_me for PyClassObject. -/
def tryDerefPyClass (mem : Mem) (addr : Nat) : Except PyError PyClassObjectS :=
  if addr = 0 then .error .NullPointer else derefPyClass mem addr

/-- ClassObject::bases: return the class pointed to by cl_bases, or none if
that pointer is null. -/
def pyClassBases (mem : Mem) (c : PyClassObjectS) : Except PyError (Option PyClassObjectS) :=
  if c.clBases = 0 then .ok none
  else (tryDerefPyClass mem c.clBases).map some

/-- ClassObject::to_object. -/
def classToObject (c : PyClassObjectS) : PyObjectS :=
  { me := c.me, refcnt := c.refcnt, obType := c.obType }

/-- InstanceObject::class: dereference in_class as a ClassObject. -/
def pyInstanceClass (mem : Mem) (i : PyInstanceObjectS) : Except PyError PyClassObjectS :=
  tryDerefPyClass mem i.inClass

/-- InstanceObject::attributes: dereference in_dict as a DictObject (a null
in_dict is a null-pointer error, not an empty dict). -/
def pyInstanceAttributes (mem : Mem) (i : PyInstanceObjectS) : Except PyError PyDictObjectS :=
  tryDerefPyDict mem i.inDict

/-- Object::ob_type for PyObject: null-check the type pointer, then deref
it as a PyTypeObject. -/
def pyObjectObType (mem : Mem) (o : PyObjectS) : Except PyError PyTypeObjectS :=
  tryDerefPyType mem o.obType

/-- PyObject::attributes (src/cpython27/mod.rs lines 330-339): consult the
type's dictoffset; zero means no attribute dict; ANY nonzero dictoffset
(positive included) reads the word at origin + dictoffset and dereferences
it as a dict — there is no basicsize/itemsize/alignment computation here. -/
def pyObjectAttributes (mem : Mem) (o : PyObjectS) : Except PyError (Option PyDictObjectS) :=
  match pyObjectObType mem o with
  | .error e => .error e
  | .ok t =>
    if t.dictoffset = 0 then .ok none
    else
      match tryDerefPointer mem (wrapAddInt o.me t.dictoffset) with
      | .error e => .error e
      | .ok dictPtr =>
        match tryDerefPyDict mem dictPtr with
        | .error e => .error e
        | .ok d => .ok (some d)

/-- VarObject::to_object. -/
def varToObject (v : PyVarObjectS) : PyObjectS :=
  { me := v.me, refcnt := v.refcnt, obType := v.obType }

/-- PyVarObject::attributes (src/cpython27/mod.rs lines 382-401): zero
dictoffset means no attribute dict; negative dictoffset reads the word at
origin + dictoffset; positive dictoffset reads the word at
origin + basicsize + |ob_size|*itemsize + dictoffset, aligned up to a full
word. -/
def pyVarObjectAttributes (mem : Mem) (v : PyVarObjectS) : Except PyError (Option PyDictObjectS) :=
  match pyObjectObType mem (varToObject v) with
  | .error e => .error e
  | .ok t =>
    if t.dictoffset = 0 then .ok none
    else
      match
        (if t.dictoffset < 0 then
          tryDerefPointer mem (wrapAddInt v.me t.dictoffset)
        else
          tryDerefPointer mem
            (wrap (v.me +
              (intToUsize (t.basicsize + |v.obSize| * t.itemsize + t.dictoffset) + 8 - 1)
                / 8 * 8))) with
      | .error e => .error e
      | .ok dictPtr =>
        match tryDerefPyDict mem dictPtr with
        | .error e => .error e
        | .ok d => .ok (some d)

/-- BoolObject::value: the embedded signed long tested against zero. -/
def pyBoolValue (b : PyIntObjectS) : Bool := b.obIval ≠ 0

/-- IntObject::read: the embedded signed long widened to a big integer. -/
def pyIntRead (i : PyIntObjectS) : Int := i.obIval

/-- PyDictObject::entries loop body state, one entry per kept slot:
(hash as usize, key object, value object). -/
abbrev DictEntryT : Type := Nat × PyObjectS × PyObjectS

/-- The slot-count computation of PyDictObject::entries: mask as usize + 1
(wrapping), then capped at 10 000. -/
def dictSlots (d : PyDictObjectS) : Nat :=
  let slots := wrap (intToUsize d.maMask + 1)
  if slots ≥ 10000 then 10000 else slots

/-- One slot of the entries loop, as an independent read: fetch the
entry-sized block at table + slot*24, skip it if either pointer is null,
otherwise dereference key and value as generic objects.  `ok none` is a
skipped slot. -/
def dictSlotRead (mem : Mem) (table slot : Nat) : Except PyError (Option DictEntryT) := do
  let bs ← getVec mem (wrap (table + slot * pyDictEntrySize)) pyDictEntrySize
  let keyPtr := le64get bs 8
  let valuePtr := le64get bs 16
  if keyPtr = 0 ∨ valuePtr = 0 then .ok none
  else do
    let k ← tryDerefPyObject mem keyPtr
    let v ← tryDerefPyObject mem valuePtr
    .ok (some ((le64get bs 0, k, v) : DictEntryT))

/-- The sequential loop of PyDictObject::entries: slots are visited in
ascending order starting at `slot`, `remaining` more of them; a failing
read or dereference aborts the whole call with that error. -/
def pyDictEntriesGo (mem : Mem) (table : Nat) (slot : Nat) :
    Nat → Except PyError (List DictEntryT)
  | 0 => .ok []
  | r + 1 =>
    match dictSlotRead mem table slot with
    | .error e => .error e
    | .ok none => pyDictEntriesGo mem table (slot + 1) r
    | .ok (some entry) => (pyDictEntriesGo mem table (slot + 1) r).map (entry :: ·)

/-- PyDictObject::entries (src/cpython27/mod.rs lines 896-933). -/
def pyDictEntries (mem : Mem) (d : PyDictObjectS) : Except PyError (List DictEntryT) :=
  pyDictEntriesGo mem d.maTable 0 (dictSlots d)

/-- The entry a slot contributes to the result: its decoded entry when it
was read and kept, none when it was skipped or failed. -/
def dictSlotKept (mem : Mem) (table i : Nat) : Option DictEntryT :=
  match dictSlotRead mem table i with
  | .ok (some en) => some en
  | _ => none

/-- Whether a slot read succeeded (skipped slots included). -/
def isOkE : Except PyError (Option DictEntryT) → Bool
  | .ok _ => true
  | .error _ => false

/-- The typed variant produced by TypeObject::downcast (PyTypedObject). -/
inductive PyTypedObjectS where
  | TypeV (t : PyTypeObjectS)
  | ObjectV (t : PyTypeObjectS) (o : PyObjectS)
  | NoneV (n : PyNoneObjectS)
  | ClassV (c : PyClassObjectS)
  | InstanceV (i : PyInstanceObjectS)
  | StrV (s : PyStringObjectS)
  | UnicodeV (u : PyUnicodeObjectS)
  | TupleV (t : PyTupleObjectS)
  | ListV (l : PyListObjectS)
  | DictV (d : PyDictObjectS)
  | BoolV (b : PyIntObjectS)
  | IntV (i : PyIntObjectS)
  | FloatV (f : PyFloatObjectS)
  deriving DecidableEq, Repr

/-- The byte sequences of the recognized type names (ASCII). -/
def nmType : List Nat := [116, 121, 112, 101]

/-- "NoneType" as bytes. -/
def nmNoneType : List Nat := [78, 111, 110, 101, 84, 121, 112, 101]

/-- "classobj" as bytes. -/
def nmClassobj : List Nat := [99, 108, 97, 115, 115, 111, 98, 106]

/-- "instance" as bytes. -/
def nmInstance : List Nat := [105, 110, 115, 116, 97, 110, 99, 101]

/-- "str" as bytes. -/
def nmStr : List Nat := [115, 116, 114]

/-- "unicode" as bytes. -/
def nmUnicode : List Nat := [117, 110, 105, 99, 111, 100, 101]

/-- "tuple" as bytes. -/
def nmTuple : List Nat := [116, 117, 112, 108, 101]

/-- "list" as bytes. -/
def nmList : List Nat := [108, 105, 115, 116]

/-- "dict" as bytes. -/
def nmDict : List Nat := [100, 105, 99, 116]

/-- "bool" as bytes. -/
def nmBool : List Nat := [98, 111, 111, 108]

/-- "int" as bytes. -/
def nmInt : List Nat := [105, 110, 116]

/-- "float" as bytes. -/
def nmFloat : List Nat := [102, 108, 111, 97, 116]

/-- TypeObject::downcast (src/cpython27/mod.rs lines 272-290): classify by
the type name and re-dereference the object's origin address at the
matching layout; any unrecognized name yields the generic Object variant
carrying the type and the object header. -/
def downcast (mem : Mem) (t : PyTypeObjectS) (o : PyObjectS) : Except PyError PyTypedObjectS :=
  if t.name = nmType then (tryDerefPyType mem o.me).map .TypeV
  else if t.name = nmNoneType then (tryDerefPyNone mem o.me).map .NoneV
  else if t.name = nmClassobj then (tryDerefPyClass mem o.me).map .ClassV
  else if t.name = nmInstance then (tryDerefPyInstance mem o.me).map .InstanceV
  else if t.name = nmStr then (tryDerefPyString mem o.me).map .StrV
  else if t.name = nmUnicode then (tryDerefPyUnicode mem o.me).map .UnicodeV
  else if t.name = nmTuple then (tryDerefPyTuple mem o.me).map .TupleV
  else if t.name = nmList then (tryDerefPyList mem o.me).map .ListV
  else if t.name = nmDict then (tryDerefPyDict mem o.me).map .DictV
  else if t.name = nmBool then (tryDerefPyInt mem o.me).map .BoolV
  else if t.name = nmInt then (tryDerefPyInt mem o.me).map .IntV
  else if t.name = nmFloat then (tryDerefPyFloat mem o.me).map .FloatV
  else .ok (.ObjectV t o)

/-- The element iterator shared by TupleItems and ListItems
(src/interpreter.rs): while the cursor is below the end pointer, produce
one element — read the word at the cursor as a pointer, then dereference
that pointer as a generic object header — and advance the cursor by one
word (wrapping).  Each element is an independent read; an erroring element
is yielded as an error and iteration itself continues.  `fl` is model
fuel: `none` means the loop was cut off before reaching the end pointer
(the Rust loop can cycle through the wrapped address space). -/
def itemsIterF (mem : Mem) : Nat → Nat → Nat → Option (List (Except PyError PyObjectS))
  | 0, offset, endP => if offset < endP then none else some []
  | fl + 1, offset, endP =>
    if offset < endP then
      (itemsIterF mem fl (wrap (offset + 8)) endP).map
        (((tryDerefPointer mem offset).bind (tryDerefPyObject mem)) :: ·)
    else some []

/-- TupleItems::new for a tuple: Modelled from the spec: `items_base` is
the address of the inline ob_item[0] slot (the constructor call site is
not in the source tree); the end pointer is base + length*wordsize with
wrapping usize arithmetic, length being ob_size as usize. -/
def tupleItemsF (mem : Mem) (fl : Nat) (t : PyTupleObjectS) :
    Option (List (Except PyError PyObjectS)) :=
  let base := wrap (t.me + obItemOffset)
  itemsIterF mem fl base (wrap (base + intToUsize t.obSize * 8))

/-- ListItems::new for a list: Modelled from the spec: `items_base` is the
value of the ob_item field (the constructor call site is not in the source
tree); end pointer as for tuples. -/
def listItemsF (mem : Mem) (fl : Nat) (l : PyListObjectS) :
    Option (List (Except PyError PyObjectS)) :=
  itemsIterF mem fl l.obItem (wrap (l.obItem + intToUsize l.obSize * 8))

/-- `take_while(Result::is_ok).map(Result::unwrap)` over a yielded element
sequence: the ok prefix before the first error. -/
def takeWhileOk : List (Except PyError PyObjectS) → List PyObjectS
  | [] => []
  | .ok o :: rest => o :: takeWhileOk rest
  | .error _ :: _ => []

/-
The graph walker (src/walker.rs).  HashMaps are modelled as association
lists with prepend-and-shadow insertion (the latest insertion for a key
wins on lookup, matching HashMap overwrite); VecDeque is a list whose head
is the front.  The inline recursion of `step` into dictionary keys is not
structurally bounded (the source comments that bad input data may recurse
forever), so the model takes fuel; a `none` result means the fuel ran out,
never a behavior of the program.
-/

/-- DecodedData (src/walker.rs lines 12-38).  Strings carry raw byte or
code-unit lists (lossy text repair is not modelled); Type is `Ty` because
`Type` is reserved in Lean; attribute maps and dicts are association lists
whose head entry shadows later ones. -/
inductive DecodedData where
  | Ty (name : List Nat)
  | Object (objectType : Nat) (objectTypeName : List Nat) (attributes : List (List Nat × Nat))
  | NoneD
  | Class (className : List Nat) (bases : Option Nat)
  | Instance (instanceClass : Nat) (instanceClassName : List Nat)
      (attributes : List (List Nat × Nat))
  | Bytes (bs : List Nat)
  | Str (s : List Nat)
  | Tuple (items : List Nat)
  | ListD (items : List Nat)
  | Dict (entries : List (Nat × Nat))
  | BoolD (b : Bool)
  | IntD (i : Int)
  | Float (bits : Nat)
  | Error (e : PyError)
  deriving DecidableEq, Repr

/-- The `Decoded` result of one step (src/walker.rs lines 40-44). -/
structure DecodedR where
  objectData : DecodedData
  typeObjectData : DecodedData
  typeObjectPointer : Nat
  deriving DecidableEq, Repr

/-- The walker's pending-visit FIFO of generic object headers. -/
abbrev Queue : Type := List PyObjectS

/-- The walker's type memoization table, keyed by type-object address. -/
abbrev Memo : Type := List (Nat × PyTypeObjectS)

/-- The walker's output graph: address to decoded node. -/
abbrev Graph : Type := List (Nat × DecodedData)

/-- The attribute maps built while decoding Object/Instance nodes. -/
abbrev AttrMap : Type := List (List Nat × Nat)

/-- HashMap lookup over the memo table. -/
def lookupMemo : Memo → Nat → Option PyTypeObjectS
  | [], _ => none
  | (k, t) :: rest, a => if k = a then some t else lookupMemo rest a

/-- HashMap insert over the memo table (prepend shadows). -/
def memoInsert (memo : Memo) (a : Nat) (t : PyTypeObjectS) : Memo := (a, t) :: memo

/-- HashMap lookup over the graph. -/
def lookupG : Graph → Nat → Option DecodedData
  | [], _ => none
  | (k, v) :: rest, a => if k = a then some v else lookupG rest a

/-- HashMap insert over the graph (prepend shadows). -/
def insertG (g : Graph) (a : Nat) (v : DecodedData) : Graph := (a, v) :: g

/-- The result type of one step: the decode outcome plus the queue and memo
as mutated up to that point (Rust mutates them through &mut references, so
pushes that happened before a failure survive the failure). -/
abbrev StepRes : Type := Option (Except PyError DecodedR × Queue × Memo)

/-- The continuation of the attribute-dict key loop after one inline key
decode (src/walker.rs lines 82-92 and 124-136): a failing key decode
aborts the loop with that error (question-mark operator); a key that
decoded to the String variant adds (key text, value address) to the map
and pushes the value on the queue; any other successfully decoded key is
skipped.  Queue and memo continue from the states the inline decode left
behind. -/
def attrStep (next : AttrMap → Queue → Memo → Option (Except PyError AttrMap × Queue × Memo))
    (v : PyObjectS) (attrs : AttrMap) :
    StepRes → Option (Except PyError AttrMap × Queue × Memo)
  | none => none
  | some (.error e, q, m) => some (.error e, q, m)
  | some (.ok d, q, m) =>
    match d.objectData with
    | .Str s => next ((s, v.me) :: attrs) (q ++ [v]) m
    | _ => next attrs q m

/-- The attribute-dict key loop: decode each entry's key inline through
`stepFn` (the walker's own step at one less fuel — recursively, not via
the queue), keep String keys, enqueue their values. -/
def attrLoopF (stepFn : PyObjectS → Queue → Memo → StepRes) :
    List DictEntryT → AttrMap → Queue → Memo →
    Option (Except PyError AttrMap × Queue × Memo)
  | [], attrs, q, m => some (.ok attrs, q, m)
  | (_, k, v) :: es, attrs, q, m => attrStep (attrLoopF stepFn es) v attrs (stepFn k q m)

/-- Wrap an attribute-loop outcome into the generic-Object decode result. -/
def objFinish (tpPtr : Nat) (tname : List Nat) :
    Option (Except PyError AttrMap × Queue × Memo) → StepRes
  | none => none
  | some (.error e, q, m) => some (.error e, q, m)
  | some (.ok attrs, q, m) =>
    some (.ok ⟨.Object tpPtr tname attrs, .Ty tname, tpPtr⟩, q, m)

/-- Wrap an attribute-loop outcome into the Instance decode result. -/
def instFinish (clsMe : Nat) (clsName : List Nat) (tpPtr : Nat) (tname : List Nat) :
    Option (Except PyError AttrMap × Queue × Memo) → StepRes
  | none => none
  | some (.error e, q, m) => some (.error e, q, m)
  | some (.ok attrs, q, m) =>
    some (.ok ⟨.Instance clsMe clsName attrs, .Ty tname, tpPtr⟩, q, m)

/-- The Dict node payload: entries inserted as (key address, value address)
in slot order (prepend-shadow models HashMap insert). -/
def dictPairsOf (es : List DictEntryT) : List (Nat × Nat) :=
  es.foldl (fun acc en => (en.2.1.me, en.2.2.me) :: acc) []

/-- The key and value objects of dict entries, each entry contributing its
key then its value, in entry order (the enqueue order of the Dict arm). -/
def dictEnqueue (es : List DictEntryT) : List PyObjectS :=
  es.flatMap fun en => [en.2.1, en.2.2]

/-- The match on the typed variant in step (src/walker.rs lines 70-196),
one arm per object kind.  `stepFn` is the walker's step at one less fuel,
used for inline key decoding; `itFuel` bounds the element iterators;
`tpPtr`/`tname` are the memoized type pointer and name. -/
def decodeArm (mem : Mem) (ha : Nat) (stepFn : PyObjectS → Queue → Memo → StepRes)
    (itFuel : Nat) (tpPtr : Nat) (tname : List Nat) (typed : PyTypedObjectS)
    (q : Queue) (memo : Memo) : StepRes :=
  match typed with
  | .TypeV t' => some (.ok ⟨.Ty t'.name, .Ty tname, tpPtr⟩, q, memo)
  | .ObjectV _t o =>
    match pyObjectAttributes mem o with
    | .error e => some (.error e, q, memo)
    | .ok none => some (.ok ⟨.Object tpPtr tname [], .Ty tname, tpPtr⟩, q, memo)
    | .ok (some d) =>
      match pyDictEntries mem d with
      | .error e => some (.error e, q, memo)
      | .ok entries => objFinish tpPtr tname (attrLoopF stepFn entries [] q memo)
  | .NoneV _ => some (.ok ⟨.NoneD, .Ty tname, tpPtr⟩, q, memo)
  | .ClassV c =>
    match pyClassBases mem c with
    | .error e => some (.error e, q, memo)
    | .ok none => some (.ok ⟨.Class c.name none, .Ty tname, tpPtr⟩, q, memo)
    | .ok (some bc) =>
      some (.ok ⟨.Class c.name (some bc.me), .Ty tname, tpPtr⟩, q ++ [classToObject bc], memo)
  | .InstanceV inst =>
    match pyInstanceClass mem inst with
    | .error e => some (.error e, q, memo)
    | .ok cls =>
      match pyInstanceAttributes mem inst with
      | .error e => some (.error e, q, memo)
      | .ok d =>
        match pyDictEntries mem d with
        | .error e => some (.error e, q, memo)
        | .ok entries =>
          instFinish cls.me cls.name tpPtr tname (attrLoopF stepFn entries [] q memo)
  | .StrV s =>
    match pyStringRead mem s with
    | .error e => some (.error e, q, memo)
    | .ok bytes => some (.ok ⟨.Str bytes, .Ty tname, tpPtr⟩, q, memo)
  | .UnicodeV u =>
    match pyUnicodeRead mem ha u with
    | .error e => some (.error e, q, memo)
    | .ok units => some (.ok ⟨.Str units, .Ty tname, tpPtr⟩, q, memo)
  | .TupleV t =>
    match tupleItemsF mem itFuel t with
    | none => none
    | some seq =>
      let items := takeWhileOk seq
      some (.ok ⟨.Tuple (items.map (·.me)), .Ty tname, tpPtr⟩, q ++ items, memo)
  | .ListV l =>
    match listItemsF mem itFuel l with
    | none => none
    | some seq =>
      let items := takeWhileOk seq
      some (.ok ⟨.ListD (items.map (·.me)), .Ty tname, tpPtr⟩, q ++ items, memo)
  | .DictV d =>
    match pyDictEntries mem d with
    | .error e => some (.error e, q, memo)
    | .ok es =>
      some (.ok ⟨.Dict (dictPairsOf es), .Ty tname, tpPtr⟩, q ++ dictEnqueue es, memo)
  | .BoolV b => some (.ok ⟨.BoolD (pyBoolValue b), .Ty tname, tpPtr⟩, q, memo)
  | .IntV i => some (.ok ⟨.IntD (pyIntRead i), .Ty tname, tpPtr⟩, q, memo)
  | .FloatV fo => some (.ok ⟨.Float fo.obFvalBits, .Ty tname, tpPtr⟩, q, memo)

/-- Downcast the object through its (memoized) type and decode the result
(the `?` on downcast propagates its error with queue and memo untouched). -/
def stepDowncast (mem : Mem) (ha : Nat) (stepFn : PyObjectS → Queue → Memo → StepRes)
    (itFuel : Nat) (t : PyTypeObjectS) (obj : PyObjectS) (q : Queue) (memo : Memo) : StepRes :=
  match downcast mem t obj with
  | .error e => some (.error e, q, memo)
  | .ok typed => decodeArm mem ha stepFn itFuel obj.obType t.name typed q memo

/-- step (src/walker.rs lines 46-203): look the type up in the memo table,
dereferencing and memoizing it on a miss (a failing type read propagates
with queue and memo untouched), then downcast and decode.  Fuel decreases
on every inline key decode; `none` means the fuel ran out. -/
def stepF (ha : Nat) (mem : Mem) : Nat → PyObjectS → Queue → Memo → StepRes
  | 0, _, _, _ => none
  | f + 1, obj, q, memo =>
    match lookupMemo memo obj.obType with
    | some t => stepDowncast mem ha (stepF ha mem f) f t obj q memo
    | none =>
      match pyObjectObType mem obj with
      | .error e => some (.error e, q, memo)
      | .ok t => stepDowncast mem ha (stepF ha mem f) f t obj q (memoInsert memo obj.obType t)

/-- The continuation of one iteration of the walk loop (src/walker.rs lines
224-236): on a successful step, record the Type node at the type pointer
and the decoded node at the popped address; on a failing step, record an
Error node at the popped address; either way continue with the queue and
memo the step left behind. -/
def walkStep (next : Queue → Graph → Memo → Option Graph) (a : Nat) (g : Graph) :
    StepRes → Option Graph
  | none => none
  | some (.ok d, q, memo) =>
    next q (insertG (insertG g d.typeObjectPointer d.typeObjectData) a d.objectData) memo
  | some (.error e, q, memo) => next q (insertG g a (.Error e)) memo

/-- The while loop of walk (src/walker.rs lines 218-237): pop the front
object; skip it if its address is already in the graph; otherwise step and
record.  Fuel bounds the number of iterations; `none` means it ran out. -/
def walkLoopF (ha : Nat) (mem : Mem) : Nat → Queue → Graph → Memo → Option Graph
  | _, [], g, _ => some g
  | 0, _ :: _, _, _ => none
  | f + 1, obj :: q, g, memo =>
    if (lookupG g obj.me).isSome then walkLoopF ha mem f q g memo
    else walkStep (walkLoopF ha mem f) obj.me g (stepF ha mem f obj q memo)

/-- walk (src/walker.rs lines 205-240): dereference the root pointer as a
generic object — on failure the queue stays empty and the loop returns the
empty graph — then run the loop from empty graph and memo. -/
def walkF (ha : Nat) (fuel : Nat) (mem : Mem) (root : Nat) : Option Graph :=
  match tryDerefPyObject mem root with
  | .error _ => walkLoopF ha mem fuel [] [] []
  | .ok obj => walkLoopF ha mem fuel [obj] [] []

/-
Concrete target memories for the runs below.  Each is a handful of synthetic
objects laid out at word-aligned addresses; `wreg` lays out a region of
64-bit little-endian words.
-/

/-- A region of consecutive 64-bit little-endian words at `base`. -/
def wreg (base : Nat) (ws : List Nat) : Nat × List Nat := (base, ws.flatMap le64)

/-- A memory with no readable address at all. -/
def memNone : Mem := fun _ => none

/-- "Zt", the name of a synthetic unrecognized type (decodes to the generic
Object variant). -/
def nmZt : List Nat := [90, 116]

/-- Four raw bytes 1,2,3,4 at address 256, for exercising get_u16_vec. -/
def memU16 : Mem := mkMem [(256, [1, 2, 3, 4])]

/-- Two unicode objects: at 512 with ob_size = 3 and at 768 with
ob_size = 4; four raw bytes at 1024 standing for whatever the host-local
header-copy address happens to hold. -/
def memUni : Mem := mkMem
  [wreg 512 [1, 256, 3, 0, 0],
   wreg 768 [1, 256, 4, 0, 0],
   (1024, [10, 11, 12, 13])]

/-- The unicode header at 512 of memUni. -/
def uni3 : PyUnicodeObjectS := ⟨512, 1, 256, 3⟩

/-- The unicode header at 768 of memUni. -/
def uni4 : PyUnicodeObjectS := ⟨768, 1, 256, 4⟩

/-- Memory for the attributes-offset run: type "Zt" at 256 with
basicsize 24, itemsize 8, dictoffset 24; an object at 512 with ob_size -2
whose word at 512+24 points at the dict at 1280 and whose word at
512+64 (the aligned basicsize formula address) points at the dict at 1536;
a second type at 2048 with dictoffset 0 and an object of it at 2304. -/
def memAttr : Mem := mkMem
  [wreg 256 [1, 0, 0, 384, 24, 8, 24],
   (384, [90, 116, 0]),
   wreg 512 [1, 256, U64 - 2, 1280, 0, 0, 0, 0, 1536],
   wreg 1280 [1, 0, 0, 0, 0, 0],
   wreg 1536 [2, 0, 0, 0, 0, 0],
   wreg 2048 [1, 0, 0, 2112, 0, 0, 0],
   (2112, [90, 116, 0]),
   wreg 2304 [1, 2048]]

/-- The object header at 512 of memAttr. -/
def attrObj : PyObjectS := ⟨512, 1, 256⟩

/-- The var-object header at 512 of memAttr (ob_size = -2). -/
def attrVar : PyVarObjectS := ⟨512, 1, 256, -2⟩

/-- The object header at 2304 of memAttr (dictoffset-0 type). -/
def attrObj0 : PyObjectS := ⟨2304, 1, 2048⟩

/-- The type object at 256 of memAttr, as decoded. -/
def attrT : PyTypeObjectS := ⟨256, 1, 0, 0, 384, nmZt, 24, 8, 24⟩

/-- The type object at 2048 of memAttr, as decoded. -/
def attrT0 : PyTypeObjectS := ⟨2048, 1, 0, 0, 2112, nmZt, 0, 0, 0⟩

/-- The dict headers at 1280 and 1536 of memAttr, as decoded. -/
def attrD1 : PyDictObjectS := ⟨1280, 1, 0, 0, 0, 0, 0⟩

/-- The dict header at 1536 of memAttr, as decoded. -/
def attrD2 : PyDictObjectS := ⟨1536, 2, 0, 0, 0, 0, 0⟩

/-- A dict whose mask is 2 (three slots) with table at 640: slot 0 holds a
real entry (hash 7, key 1792, value 1856), slot 1 has a null key, slot 2 a
null value. -/
def memDictW : Mem := mkMem
  [wreg 640 [7, 1792, 1856, 0, 0, 5, 0, 6, 0],
   wreg 1792 [1, 0],
   wreg 1856 [2, 0]]

/-- The dict header for memDictW (mask 2, table 640). -/
def dictW : PyDictObjectS := ⟨512, 1, 0, 0, 0, 2, 640⟩

/-- A tuple of declared length 3 at 512 whose first two element pointers
(768, 832) dereference to ints 42 and 7 and whose third element pointer is
the unreadable 3735928559. -/
def memTup : Mem := mkMem
  [wreg 256 [1, 0, 0, 320, 0, 0, 0],
   (320, [116, 117, 112, 108, 101, 0]),
   wreg 512 [1, 256, 3, 768, 832, 3735928559],
   wreg 768 [1, 1920, 42],
   wreg 832 [1, 1920, 7],
   wreg 1920 [1, 0, 0, 1984, 0, 0, 0],
   (1984, [105, 110, 116, 0])]

/-- The tuple header at 512 of memTup. -/
def tupT : PyTupleObjectS := ⟨512, 1, 256, 3⟩

/-- A generic object at 512 whose attribute dict (at 768, mask 1, table at
896) has two entries: entry 0 with a string key "hi" (at 1024) and an int
value 42 (at 1280), entry 1 with a key at 1536 whose type pointer
3735928559 is unreadable (its value 1600 is a readable header). -/
def memErrQ : Mem := mkMem
  [wreg 256 [1, 0, 0, 320, 0, 0, 24],
   (320, [90, 116, 0]),
   wreg 512 [1, 256, 0, 768],
   wreg 768 [1, 0, 0, 0, 1, 896],
   wreg 896 [0, 1024, 1280, 0, 1536, 1600],
   (1024, le64 1 ++ le64 1792 ++ le64 2 ++ le64 0 ++ [0, 0, 0, 0, 104, 105, 0, 0]),
   wreg 1280 [1, 1920, 42],
   wreg 1536 [1, 3735928559],
   wreg 1600 [1, 1920],
   wreg 1792 [1, 0, 0, 1856, 0, 0, 0],
   (1856, [115, 116, 114, 0]),
   wreg 1920 [1, 0, 0, 1984, 0, 0, 0],
   (1984, [105, 110, 116, 0])]

/-- A generic object at 512 whose attribute dict has a single entry whose
key (at 1536) has an unreadable type pointer; the value 1600 is readable. -/
def memKeyErr : Mem := mkMem
  [wreg 256 [1, 0, 0, 320, 0, 0, 24],
   (320, [90, 116, 0]),
   wreg 512 [1, 256, 0, 768],
   wreg 768 [1, 0, 0, 0, 0, 896],
   wreg 896 [0, 1536, 1600],
   wreg 1536 [1, 3735928559],
   wreg 1600 [1, 0]]

/-- A generic object at 512 whose attribute dict (mask 1, table 896) has an
int-keyed entry (key 1024 = int 99, value 1280) and a string-keyed entry
(key 1536 = "a", value 1664 = int 42). -/
def memKeys : Mem := mkMem
  [wreg 256 [1, 0, 0, 320, 0, 0, 24],
   (320, [90, 116, 0]),
   wreg 512 [1, 256, 0, 768],
   wreg 768 [1, 0, 0, 0, 1, 896],
   wreg 896 [0, 1024, 1280, 0, 1536, 1664],
   wreg 1024 [1, 1920, 99],
   wreg 1280 [1, 1920],
   (1536, le64 1 ++ le64 1792 ++ le64 1 ++ le64 0 ++ [0, 0, 0, 0, 97, 0, 0, 0]),
   wreg 1664 [1, 1920, 42],
   wreg 1792 [1, 0, 0, 1856, 0, 0, 0],
   (1856, [115, 116, 114, 0]),
   wreg 1920 [1, 0, 0, 1984, 0, 0, 0],
   (1984, [105, 110, 116, 0])]

/-- A generic object at 512 whose attribute dict's single entry has the
object ITSELF as its key: inline key decoding recurses on the same
address forever. -/
def memKeyCycle : Mem := mkMem
  [wreg 256 [1, 0, 0, 320, 0, 0, 24],
   (320, [90, 116, 0]),
   wreg 512 [1, 256, 0, 768],
   wreg 768 [1, 0, 0, 0, 0, 896],
   wreg 896 [0, 512, 1600],
   wreg 1600 [1, 0]]

/-- The object header at 512 of memKeyCycle. -/
def cycObj : PyObjectS := ⟨512, 1, 256⟩

/-- The entry value header at 1600 of memKeyCycle. -/
def cycVal : PyObjectS := ⟨1600, 1, 0⟩

/-- The type at 256 of memKeyCycle, as decoded. -/
def cycT : PyTypeObjectS := ⟨256, 1, 0, 0, 320, nmZt, 0, 0, 24⟩

/-- The memo table after the type of memKeyCycle's object is memoized. -/
def cycMemo : Memo := [(256, cycT)]

/-- A list at 512 whose single element pointer is its own address (the
spec's cycle scenario: queue-level cycles must terminate). -/
def memSelfList : Mem := mkMem
  [wreg 256 [1, 0, 0, 320, 0, 0, 0],
   (320, [108, 105, 115, 116, 0]),
   wreg 512 [1, 256, 1, 640, 0],
   wreg 640 [512]]

/-- An instance at 512 with in_class = 768 (a readable class named "Cls")
and a NULL in_dict; an instance at 1536 with a NULL in_class; a generic
object at 2048 whose type (at 1792) has dictoffset 0. -/
def memInst : Mem := mkMem
  [wreg 256 [1, 0, 0, 320, 0, 0, 0],
   (320, [105, 110, 115, 116, 97, 110, 99, 101, 0]),
   wreg 512 [1, 256, 768, 0],
   wreg 768 [1, 0, 0, 0, 1024],
   (1024, le64 1 ++ le64 0 ++ le64 3 ++ le64 0 ++ [0, 0, 0, 0, 67, 108, 115, 0]),
   wreg 1536 [1, 256, 0, 999],
   wreg 1792 [1, 0, 0, 1856, 0, 0, 0],
   (1856, [90, 116, 0]),
   wreg 2048 [1, 1792]]

/-- The type object at 256 of memInst (name "instance"), as decoded. -/
def instT : PyTypeObjectS := ⟨256, 1, 0, 0, 320, nmInstance, 0, 0, 0⟩

/-- The generic header of the instance at 512 of memInst. -/
def instObj : PyObjectS := ⟨512, 1, 256⟩

/-- The instance at 512 of memInst: in_class 768, in_dict NULL. -/
def instI : PyInstanceObjectS := ⟨512, 1, 256, 768, 0⟩

/-- The class at 768 of memInst, named "Cls". -/
def instCls : PyClassObjectS := ⟨768, 1, 0, 0, 0, 1024, [67, 108, 115]⟩

set_option maxRecDepth 40000

/-- C4 — code bug.  get_u16_vec on an even size does not assemble the value
at index i from the bytes at a + 2i and a + 2i + 1: the loop takes
overlapping byte windows (vec[idx], vec[idx+1]).  On the four bytes
1,2,3,4, the result is [513, 770] (= [0x0201, 0x0302]) where the claimed
little-endian pairing gives [513, 1027] (= [0x0201, 0x0403]).  The
odd-size half of the claim does hold: size 3 fails with the
"must be multiple of 2" segmentation-fault-kind cause. -/
theorem get_u16_vec_code_bug :
    getU16Vec memU16 256 4 = .ok [513, 770] ∧
    (Except.ok [513, 770] : Except PyError (List Nat)) ≠ .ok [513, 1027] ∧
    getU16Vec memU16 256 3 = .error (.SegmentationFault "must be multiple of 2") :=
  ⟨by decide, by decide, by decide⟩

/-- C3 — code bug.  PyUnicodeObject::read_bytes/read pass `ob_size` (not
2·ob_size) bytes and read at the address of the walker-local header copy
(the parameter `ha`), not at the object's origin payload.  Consequences
proved here: a unicode object of odd declared size 3 can never be read —
for EVERY memory and every host address, read fails with the
"must be multiple of 2" cause, where the claim requires 3 code units
decoded from 6 payload bytes; and a successful read_bytes of the size-4
object returns 4 bytes, not the claimed 2·4 = 8. -/
theorem unicode_read_code_bug :
    tryDerefPyUnicode memUni 512 = .ok uni3 ∧
    (∀ (m : Mem) (ha : Nat),
      pyUnicodeRead m ha uni3 = .error (.SegmentationFault "must be multiple of 2")) ∧
    tryDerefPyUnicode memUni 768 = .ok uni4 ∧
    (pyUnicodeReadBytes memUni 1024 uni4).map List.length = .ok 4 ∧
    (4 : Nat) ≠ 2 * 4 :=
  ⟨by decide, fun _ _ => rfl, by decide, by decide, by decide⟩

/-- For every memory, an instance with a null in_dict pointer has its
attributes operation fail with the null-pointer error (in_dict is
try_deref'd, and try_deref_me rejects null before reading). -/
lemma inst_attrs_null (mem : Mem) (i : PyInstanceObjectS) (h : i.inDict = 0) :
    pyInstanceAttributes mem i = .error .NullPointer := by
  unfold pyInstanceAttributes tryDerefPyDict
  rw [h]
  rfl

/-- For every memory, an instance with a null in_class pointer has its
class operation fail with the null-pointer error. -/
lemma inst_class_null (mem : Mem) (i : PyInstanceObjectS) (h : i.inClass = 0) :
    pyInstanceClass mem i = .error .NullPointer := by
  unfold pyInstanceClass tryDerefPyClass
  rw [h]
  rfl

/-- For every memory and fuel, step on an object that downcasts to an
instance whose in_dict is null (its class decoding fine) fails with the
null-pointer error, leaving queue and memo untouched. -/
lemma inst_step_null_dict (ha : Nat) (mem : Mem) (f : Nat) (t : PyTypeObjectS)
    (inst : PyInstanceObjectS) (obj : PyObjectS) (cls : PyClassObjectS)
    (q : Queue) (memo : Memo)
    (hm : lookupMemo memo obj.obType = some t)
    (hd : downcast mem t obj = .ok (.InstanceV inst))
    (hc : pyInstanceClass mem inst = .ok cls)
    (hdict : inst.inDict = 0) :
    stepF ha mem (f + 1) obj q memo = some (.error .NullPointer, q, memo) := by
  have hattr : pyInstanceAttributes mem inst = .error .NullPointer :=
    inst_attrs_null mem inst hdict
  simp only [stepF, hm]
  unfold stepDowncast
  rw [hd]
  simp only [decodeArm, hc, hattr]

/-- For every memory and fuel, step on an object that downcasts to an
instance whose in_class is null fails with the null-pointer error, leaving
queue and memo untouched. -/
lemma inst_step_null_class (ha : Nat) (mem : Mem) (f : Nat) (t : PyTypeObjectS)
    (inst : PyInstanceObjectS) (obj : PyObjectS) (q : Queue) (memo : Memo)
    (hm : lookupMemo memo obj.obType = some t)
    (hd : downcast mem t obj = .ok (.InstanceV inst))
    (hcls : inst.inClass = 0) :
    stepF ha mem (f + 1) obj q memo = some (.error .NullPointer, q, memo) := by
  have hc : pyInstanceClass mem inst = .error .NullPointer :=
    inst_class_null mem inst hcls
  simp only [stepF, hm]
  unfold stepDowncast
  rw [hd]
  simp only [decodeArm, hc]

/-- C10 — confirmed.  For EVERY instance object whose in_dict pointer (or
in_class pointer) is null, on every memory: the attributes (resp. class)
operation fails with the null-pointer error (conjuncts 1-2); step on any
object downcasting to such an instance fails with that error (conjuncts
3-4); the walk loop then stores an Error node carrying the null-pointer
error at the instance's address and continues (conjunct 5), and the stored
node at that address is the Error node — not an Instance node with an
empty attribute map (conjunct 6).  Unlike the generic-object path: for
every generic object whose type has dictoffset 0, the decode yields an
Object node with an empty attribute map (conjunct 7).  The three concrete
walks on memInst exercise all of it end to end (conjunct 8). -/
theorem instance_null_dict_error_spec :
    (∀ (mem : Mem) (i : PyInstanceObjectS), i.inDict = 0 →
      pyInstanceAttributes mem i = .error .NullPointer) ∧
    (∀ (mem : Mem) (i : PyInstanceObjectS), i.inClass = 0 →
      pyInstanceClass mem i = .error .NullPointer) ∧
    (∀ (ha : Nat) (mem : Mem) (f : Nat) (t : PyTypeObjectS) (inst : PyInstanceObjectS)
       (obj : PyObjectS) (cls : PyClassObjectS) (q : Queue) (memo : Memo),
      lookupMemo memo obj.obType = some t →
      downcast mem t obj = .ok (.InstanceV inst) →
      pyInstanceClass mem inst = .ok cls →
      inst.inDict = 0 →
      stepF ha mem (f + 1) obj q memo = some (.error .NullPointer, q, memo)) ∧
    (∀ (ha : Nat) (mem : Mem) (f : Nat) (t : PyTypeObjectS) (inst : PyInstanceObjectS)
       (obj : PyObjectS) (q : Queue) (memo : Memo),
      lookupMemo memo obj.obType = some t →
      downcast mem t obj = .ok (.InstanceV inst) →
      inst.inClass = 0 →
      stepF ha mem (f + 1) obj q memo = some (.error .NullPointer, q, memo)) ∧
    (∀ (ha : Nat) (mem : Mem) (f : Nat) (t : PyTypeObjectS) (inst : PyInstanceObjectS)
       (obj : PyObjectS) (cls : PyClassObjectS) (q : Queue) (g : Graph) (memo : Memo),
      lookupG g obj.me = none →
      lookupMemo memo obj.obType = some t →
      downcast mem t obj = .ok (.InstanceV inst) →
      pyInstanceClass mem inst = .ok cls →
      inst.inDict = 0 →
      walkLoopF ha mem (f + 1 + 1) (obj :: q) g memo =
        walkLoopF ha mem (f + 1) q (insertG g obj.me (.Error .NullPointer)) memo) ∧
    (∀ (g : Graph) (a : Nat) (e : PyError),
      lookupG (insertG g a (.Error e)) a = some (.Error e)) ∧
    (∀ (mem : Mem) (ha : Nat) (stepFn : PyObjectS → Queue → Memo → StepRes)
       (itFuel tpPtr : Nat) (tname : List Nat) (t' t : PyTypeObjectS) (o : PyObjectS)
       (q : Queue) (memo : Memo),
      pyObjectObType mem o = .ok t' → t'.dictoffset = 0 →
      decodeArm mem ha stepFn itFuel tpPtr tname (.ObjectV t o) q memo =
        some (.ok ⟨.Object tpPtr tname [], .Ty tname, tpPtr⟩, q, memo)) ∧
    ((walkF 0 50 memInst 512).map (fun g => lookupG g 512) =
        some (some (.Error .NullPointer)) ∧
      (walkF 0 50 memInst 1536).map (fun g => lookupG g 1536) =
        some (some (.Error .NullPointer)) ∧
      (walkF 0 50 memInst 2048).map (fun g => lookupG g 2048) =
        some (some (.Object 1792 nmZt []))) := by
  refine ⟨inst_attrs_null, inst_class_null, inst_step_null_dict, inst_step_null_class,
    ?_, ?_, ?_, ⟨by decide, by decide, by decide⟩⟩
  · intro ha mem f t inst obj cls q g memo hl hm hd hc hdict
    have hstep : stepF ha mem (f + 1) obj q memo = some (.error .NullPointer, q, memo) :=
      inst_step_null_dict ha mem f t inst obj cls q memo hm hd hc hdict
    simp [walkLoopF, hl, hstep, walkStep]
  · intro g a e
    simp [insertG, lookupG]
  · intro mem ha stepFn itFuel tpPtr tname t' t o q memo h1 h2
    have hattr : pyObjectAttributes mem o = .ok none := by
      simp [pyObjectAttributes, h1, h2]
    simp [decodeArm, hattr]

/-- Witness for C10 at the concrete memInst: the instance at 512 (null
in_dict, class "Cls" at 768) makes step fail with the null-pointer error,
hypotheses discharged by evaluation. -/
theorem instance_null_dict_error_spec_witness :
    lookupMemo [(256, instT)] instObj.obType = some instT ∧
    downcast memInst instT instObj = .ok (.InstanceV instI) ∧
    pyInstanceClass memInst instI = .ok instCls ∧
    instI.inDict = 0 ∧
    stepF 0 memInst 7 instObj [] [(256, instT)] =
      some (.error .NullPointer, [], [(256, instT)]) :=
  ⟨by decide, by decide, by decide, by decide,
   instance_null_dict_error_spec.2.2.1 0 memInst 6 instT instI instObj instCls [] [(256, instT)]
     (by decide) (by decide) (by decide) (by decide)⟩

/-- C1 — counterexample.  The object at 512 fails to decode (its attribute
dict's second key has an unreadable type pointer), and the graph does map
512 to the Error node; but the int value 1280, a child discovered and
enqueued while decoding 512 (its key, entry 0's string key, decoded before
the failing entry), is NOT left un-enqueued: the finished walk decoded it
to Int 42 — refuting "no child address discovered while decoding a is
enqueued". -/
theorem walk_error_enqueued_child_cex :
    (walkF 0 100 memErrQ 512).map (fun g => (lookupG g 512, lookupG g 1280)) =
      some (some (.Error (.SegmentationFault "read")), some (.IntD 42)) ∧
    some (.IntD 42) ≠ (none : Option DecodedData) :=
  ⟨by decide, by decide⟩

/-- C8 — counterexample.  The attribute dict of the object at 512 has a
single entry whose key fails to decode (unreadable type pointer at
3735928559).  The claim says such a key is silently dropped without
affecting the decoded node; instead the whole node decode aborts and the
walk stores an Error node at 512, not an Object node with an empty
attribute map. -/
theorem attr_key_error_cex :
    (walkF 0 50 memKeyErr 512).map (fun g => lookupG g 512) =
      some (some (.Error (.SegmentationFault "read"))) ∧
    DecodedData.Error (.SegmentationFault "read") ≠ .Object 256 nmZt [] :=
  ⟨by decide, by decide⟩

/-- One unfolding of step on memKeyCycle's object with its type memoized:
everything up to the inline decode of the first attribute key computes
away, exposing the recursive step on the same object at one less fuel. -/
lemma cyc_step_unfold (f : Nat) (q : Queue) :
    stepF 0 memKeyCycle (f + 1) cycObj q cycMemo =
      objFinish 256 nmZt (attrStep (attrLoopF (stepF 0 memKeyCycle f) []) cycVal []
        (stepF 0 memKeyCycle f cycObj q cycMemo)) := rfl

/-- Same unfolding from the empty memo: the type at 256 is dereferenced
and memoized, reaching the same recursive call. -/
lemma cyc_step_nil_unfold (f : Nat) (q : Queue) :
    stepF 0 memKeyCycle (f + 1) cycObj q [] =
      objFinish 256 nmZt (attrStep (attrLoopF (stepF 0 memKeyCycle f) []) cycVal []
        (stepF 0 memKeyCycle f cycObj q cycMemo)) := rfl

/-- Decoding memKeyCycle's object exhausts every amount of fuel: the
inline attribute-key recursion never bottoms out. -/
lemma cyc_step_none : ∀ (f : Nat) (q : Queue),
    stepF 0 memKeyCycle f cycObj q cycMemo = none := by
  intro f
  induction f with
  | zero => intro q; rfl
  | succ f ih =>
    intro q
    rw [cyc_step_unfold f q, ih q]
    rfl

/-- The same from the empty memo table. -/
lemma cyc_step_nil_none : ∀ (f : Nat) (q : Queue),
    stepF 0 memKeyCycle f cycObj q [] = none := by
  intro f q
  cases f with
  | zero => rfl
  | succ f => rw [cyc_step_nil_unfold f q, cyc_step_none f q]; rfl

/-- The walk of memKeyCycle from 512 exhausts every amount of fuel. -/
lemma cyc_walk_none : ∀ fuel : Nat, walkF 0 fuel memKeyCycle 512 = none := by
  intro fuel
  cases fuel with
  | zero => rfl
  | succ f =>
    have h : walkF 0 (f + 1) memKeyCycle 512 =
        walkStep (walkLoopF 0 memKeyCycle f) 512 [] (stepF 0 memKeyCycle f cycObj [] []) := rfl
    rw [h, cyc_step_nil_none f]
    rfl

/-- C2 — counterexample.  On the concrete memory memKeyCycle — an object
whose attribute dictionary's key is the object itself — the walk from 512
exceeds every fuel bound: the inline key decoding recurses on the same
address forever (the source comments "If the input data is is bad, this
might recurse forever"), so walk does not terminate on every cyclic
input. -/
theorem walk_cyclic_keys_diverge_cex :
    ¬ ∃ (fuel : Nat) (g : Graph), walkF 0 fuel memKeyCycle 512 = some g := by
  rintro ⟨fuel, g, h⟩
  rw [cyc_walk_none fuel] at h
  exact Option.noConfusion h

/-- C2 — amended.  Queue-level deduplication does hold: an address already
present in the graph is popped and skipped without re-decoding (first
conjunct, the skip branch of the walk loop); and a queue-level cycle — the
spec's list-containing-itself scenario — terminates, the list node
referencing itself exactly once (second conjunct).  What fails is only
termination of the inline attribute-key recursion (see the
counterexample). -/
theorem walk_dedup_spec :
    (∀ (ha : Nat) (mem : Mem) (f : Nat) (obj : PyObjectS) (q : Queue) (g : Graph)
       (memo : Memo),
      (lookupG g obj.me).isSome = true →
      walkLoopF ha mem (f + 1) (obj :: q) g memo = walkLoopF ha mem f q g memo) ∧
    (walkF 0 10 memSelfList 512).map (fun g => lookupG g 512) =
      some (some (.ListD [512])) := by
  constructor
  · intro ha mem f obj q g memo h
    simp [walkLoopF, h]
  · decide

/-- Witness for C2's amended theorem at a concrete input: the address 1 is
already in the graph, and the loop skips it. -/
theorem walk_dedup_spec_witness :
    (lookupG [(1, DecodedData.NoneD)] 1).isSome = true ∧
    walkLoopF 0 memNone 1 [⟨1, 0, 5⟩] [(1, DecodedData.NoneD)] [] =
      walkLoopF 0 memNone 0 [] [(1, DecodedData.NoneD)] [] :=
  ⟨by decide,
   walk_dedup_spec.1 0 memNone 0 ⟨1, 0, 5⟩ [] [(1, DecodedData.NoneD)] [] (by decide)⟩

/-- C9 — counterexample.  The walk of memKeyCycle from 512 never returns a
graph under any fuel bound — walk is not total on every input (same
divergence as C2's counterexample, which refutes "it always returns a
graph"). -/
theorem walk_diverges_cex :
    ¬ ∃ fuel : Nat, (walkF 0 fuel memKeyCycle 512).isSome = true := by
  rintro ⟨fuel, h⟩
  rw [cyc_walk_none fuel] at h
  simp at h

/-- C9 — amended.  walk never fails as a whole — it returns a graph
whenever it terminates, and every failure of the initial root dereference
(the null root included: conjunct two shows a null root always fails with
the null-pointer error) yields the empty graph, under any fuel (conjunct
one).  Only termination itself is not guaranteed (see the
counterexample). -/
theorem walk_total_root_spec :
    (∀ (ha fuel : Nat) (mem : Mem) (root : Nat) (e : PyError),
      tryDerefPyObject mem root = .error e → walkF ha fuel mem root = some []) ∧
    (∀ mem : Mem, tryDerefPyObject mem 0 = .error .NullPointer) ∧
    walkF 0 0 memNone 0 = some [] := by
  refine ⟨?_, fun mem => rfl, rfl⟩
  intro ha fuel mem root e h
  unfold walkF
  rw [h]
  cases fuel <;> rfl

/-- Witness for C9's amended theorem: the unreadable root 3 fails to
dereference and the walk returns the empty graph. -/
theorem walk_total_root_spec_witness :
    tryDerefPyObject memNone 3 = .error (.SegmentationFault "read") ∧
    walkF 0 5 memNone 3 = some [] :=
  ⟨by decide,
   walk_total_root_spec.1 0 5 memNone 3 (.SegmentationFault "read") (by decide)⟩

/-- C1 — amended.  A failing step stores Error(cause) at the popped address
and the walk continues — but with the queue and memo as the failing step
left them, so children enqueued before the failure point stay enqueued
(first conjunct: the loop's error branch continues from the step's mutated
queue q').  The concrete run shows it end to end: address 512 maps to the
Error node, the value 1280 enqueued before the failing key was still
processed (to Int 42), and nothing after the failure point (1536, 1600)
was enqueued or decoded. -/
theorem walk_error_node_spec :
    (∀ (ha : Nat) (mem : Mem) (f : Nat) (obj : PyObjectS) (q : Queue) (g : Graph)
       (memo : Memo) (e : PyError) (q' : Queue) (memo' : Memo),
      lookupG g obj.me = none →
      stepF ha mem f obj q memo = some (.error e, q', memo') →
      walkLoopF ha mem (f + 1) (obj :: q) g memo =
        walkLoopF ha mem f q' (insertG g obj.me (.Error e)) memo') ∧
    (walkF 0 100 memErrQ 512).map
        (fun g => (lookupG g 512, lookupG g 1280, lookupG g 1536, lookupG g 1600)) =
      some (some (.Error (.SegmentationFault "read")), some (.IntD 42), none, none) := by
  constructor
  · intro ha mem f obj q g memo e q' memo' hl hstep
    simp [walkLoopF, hl, hstep, walkStep]
  · decide

/-- Witness for C1's amended theorem: a step failing on an unreadable type
pointer leads the loop to record the Error node and continue. -/
theorem walk_error_node_spec_witness :
    lookupG [] 1 = none ∧
    stepF 0 memNone 1 ⟨1, 0, 5⟩ [] [] = some (.error (.SegmentationFault "read"), [], []) ∧
    walkLoopF 0 memNone 2 [⟨1, 0, 5⟩] [] [] =
      walkLoopF 0 memNone 1 [] (insertG [] 1 (.Error (.SegmentationFault "read"))) [] :=
  ⟨rfl, by decide,
   walk_error_node_spec.1 0 memNone 1 ⟨1, 0, 5⟩ [] [] [] (.SegmentationFault "read") [] []
     rfl (by decide)⟩



/-- The sequential entries loop, characterized by independent per-slot
reads: a successful run of `remaining` slots starting at `slot` means every
one of those slots read successfully, and the result is exactly the kept
entries of those slots in ascending slot order. -/
lemma entriesGo_spec (mem : Mem) (table : Nat) :
    ∀ (r slot : Nat) (es : List DictEntryT),
      pyDictEntriesGo mem table slot r = .ok es →
      (∀ i < r, isOkE (dictSlotRead mem table (slot + i)) = true) ∧
      es = (List.range r).filterMap (fun i => dictSlotKept mem table (slot + i)) := by
  intro r
  induction r with
  | zero =>
    intro slot es h
    unfold pyDictEntriesGo at h
    refine ⟨fun i hi => absurd hi (by omega), ?_⟩
    cases h
    simp
  | succ r ih =>
    intro slot es h
    unfold pyDictEntriesGo at h
    cases hsr : dictSlotRead mem table slot with
    | error e => rw [hsr] at h; exact absurd h (by simp)
    | ok oen =>
      rw [hsr] at h
      have hshift : ((fun i => dictSlotKept mem table (slot + i)) ∘ Nat.succ) =
          fun j => dictSlotKept mem table ((slot + 1) + j) := by
        funext j
        simp only [Function.comp]
        congr 1
        omega
      cases oen with
      | none =>
        dsimp at h
        obtain ⟨ih1, ih2⟩ := ih (slot + 1) es h
        refine ⟨?_, ?_⟩
        · intro i hi
          cases i with
          | zero => rw [Nat.add_zero, hsr]; rfl
          | succ j =>
            have := ih1 j (by omega)
            rw [show slot + (j + 1) = (slot + 1) + j by omega]
            exact this
        · rw [List.range_succ_eq_map, List.filterMap_cons, List.filterMap_map, hshift]
          have hk : dictSlotKept mem table (slot + 0) = none := by
            rw [Nat.add_zero]; unfold dictSlotKept; rw [hsr]
          rw [hk, ih2]
      | some en =>
        dsimp at h
        cases hgo : pyDictEntriesGo mem table (slot + 1) r with
        | error e => rw [hgo] at h; exact absurd h (by simp [Except.map])
        | ok es' =>
          rw [hgo] at h
          simp only [Except.map] at h
          cases h
          obtain ⟨ih1, ih2⟩ := ih (slot + 1) es' hgo
          refine ⟨?_, ?_⟩
          · intro i hi
            cases i with
            | zero => rw [Nat.add_zero, hsr]; rfl
            | succ j =>
              have := ih1 j (by omega)
              rw [show slot + (j + 1) = (slot + 1) + j by omega]
              exact this
          · rw [List.range_succ_eq_map, List.filterMap_cons, List.filterMap_map, hshift]
            have hk : dictSlotKept mem table (slot + 0) = some en := by
              rw [Nat.add_zero]; unfold dictSlotKept; rw [hsr]
            rw [hk, ih2]



/-- C6 — confirmed.  Whenever entries succeeds, the slot count it examined
is exactly min(mask as usize + 1, 10 000) — the cap holds no matter how
large mask is — every one of those slots was read as one entry-sized
block, and the result is exactly the slots with both pointers non-null,
each dereferenced as a generic object (dictSlotRead), in slot order. -/
theorem dict_entries_spec :
    ∀ (mem : Mem) (d : PyDictObjectS) (es : List DictEntryT),
      pyDictEntries mem d = .ok es →
      dictSlots d = min (wrap (intToUsize d.maMask + 1)) 10000 ∧
      (∀ i < dictSlots d, isOkE (dictSlotRead mem d.maTable i) = true) ∧
      es = (List.range (dictSlots d)).filterMap (dictSlotKept mem d.maTable) := by
  intro mem d es h
  obtain ⟨h1, h2⟩ := entriesGo_spec mem d.maTable (dictSlots d) 0 es h
  refine ⟨?_, ?_, ?_⟩
  · rw [dictSlots, Nat.min_def]
    split <;> split <;> omega
  · intro i hi
    simpa using h1 i hi
  · simpa using h2

/-- Witness for C6 on a concrete three-slot dict: one kept entry, one
null-key slot, one null-value slot. -/
theorem dict_entries_spec_witness :
    pyDictEntries memDictW dictW = .ok [(7, ⟨1792, 1, 0⟩, ⟨1856, 2, 0⟩)] ∧
    (dictSlots dictW = min (wrap (intToUsize dictW.maMask + 1)) 10000 ∧
     (∀ i < dictSlots dictW, isOkE (dictSlotRead memDictW dictW.maTable i) = true) ∧
     [((7 : Nat), (⟨1792, 1, 0⟩ : PyObjectS), (⟨1856, 2, 0⟩ : PyObjectS))] =
       (List.range (dictSlots dictW)).filterMap (dictSlotKept memDictW dictW.maTable)) :=
  ⟨by decide, dict_entries_spec memDictW dictW _ (by decide)⟩

/-- C5 — counterexample.  On memAttr, the generic object at 512 has a type
with dictoffset 24 > 0, basicsize 24, itemsize 8, |ob_size| = 2.  The
attributes operation the walker uses for generic objects
(PyObject::attributes) reads the word at origin + dictoffset = 536 and
yields the dict at 1280; the claimed formula address
origin + basicsize + |ob_size|*itemsize + dictoffset aligned = 576 holds a
pointer to the distinct dict at 1536 (which PyVarObject::attributes, not
used on this path, does return). -/
theorem object_attributes_formula_cex :
    (pyObjectAttributes memAttr attrObj).map (Option.map (·.me)) = .ok (some 1280) ∧
    (pyVarObjectAttributes memAttr attrVar).map (Option.map (·.me)) = .ok (some 1536) ∧
    (1280 : Nat) ≠ 1536 :=
  ⟨by decide, by decide, by decide⟩

/-- C5 — amended.  The object-level attributes operation (the one the
walker's generic-object path calls): dictoffset 0 means no attribute dict,
and ANY nonzero dictoffset — positive included — reads the word at
origin + dictoffset and dereferences it as a dict.  The
basicsize + |ob_size|*itemsize + dictoffset word-aligned formula of the
claim is implemented only by the var-object-level attributes operation
(third conjunct), which the walker does not invoke for generic objects. -/
theorem attributes_dictoffset_spec :
    (∀ (mem : Mem) (o : PyObjectS) (t : PyTypeObjectS),
      pyObjectObType mem o = .ok t → t.dictoffset = 0 →
      pyObjectAttributes mem o = .ok none) ∧
    (∀ (mem : Mem) (o : PyObjectS) (t : PyTypeObjectS) (p : Nat) (d : PyDictObjectS),
      pyObjectObType mem o = .ok t → t.dictoffset ≠ 0 →
      tryDerefPointer mem (wrapAddInt o.me t.dictoffset) = .ok p →
      tryDerefPyDict mem p = .ok d →
      pyObjectAttributes mem o = .ok (some d)) ∧
    (∀ (mem : Mem) (v : PyVarObjectS) (t : PyTypeObjectS) (p : Nat) (d : PyDictObjectS),
      pyObjectObType mem (varToObject v) = .ok t → 0 < t.dictoffset →
      tryDerefPointer mem
        (wrap (v.me +
          (intToUsize (t.basicsize + |v.obSize| * t.itemsize + t.dictoffset) + 8 - 1)
            / 8 * 8)) = .ok p →
      tryDerefPyDict mem p = .ok d →
      pyVarObjectAttributes mem v = .ok (some d)) := by
  refine ⟨?_, ?_, ?_⟩
  · intro mem o t h1 h2
    simp [pyObjectAttributes, h1, h2]
  · intro mem o t p d h1 h2 h3 h4
    simp [pyObjectAttributes, h1, h2, h3, h4]
  · intro mem v t p d h1 h2 h3 h4
    have hne : ¬ t.dictoffset = 0 := by omega
    have hnl : ¬ t.dictoffset < 0 := by omega
    have h3' : tryDerefPointer mem
        (wrap (v.me +
          (intToUsize (t.basicsize + |v.obSize| * t.itemsize + t.dictoffset) + 7)
            / 8 * 8)) = .ok p := h3
    simp [pyVarObjectAttributes, h1, hne, hnl, h3', h4]

/-- Witness for C5's amended theorem at the concrete memAttr objects. -/
theorem attributes_dictoffset_spec_witness :
    pyObjectObType memAttr attrObj0 = .ok attrT0 ∧
    pyObjectAttributes memAttr attrObj0 = .ok none ∧
    pyObjectObType memAttr attrObj = .ok attrT ∧
    tryDerefPointer memAttr (wrapAddInt 512 24) = .ok 1280 ∧
    tryDerefPyDict memAttr 1280 = .ok attrD1 ∧
    pyObjectAttributes memAttr attrObj = .ok (some attrD1) ∧
    pyVarObjectAttributes memAttr attrVar = .ok (some attrD2) :=
  ⟨by decide,
   attributes_dictoffset_spec.1 memAttr attrObj0 attrT0 (by decide) (by decide),
   by decide, by decide, by decide,
   attributes_dictoffset_spec.2.1 memAttr attrObj attrT 1280 attrD1
     (by decide) (by decide) (by decide) (by decide),
   attributes_dictoffset_spec.2.2 memAttr attrVar attrT 1536 attrD2
     (by decide) (by decide) (by decide) (by decide)⟩



/-- C8 — amended.  The attribute-key loop decodes each key inline through
the walker's own step: a key whose decode FAILS aborts the enclosing node
decode with that error (first conjunct — it is not silently dropped); a
key that decodes successfully to a non-String variant is silently skipped,
affecting neither the map nor the enqueued values (second conjunct); a key
that decodes to the String variant adds (text, value address) to the map
and enqueues the value (third conjunct).  The concrete run: the int-keyed
entry is dropped, the string-keyed entry is kept and its value decoded;
neither key address enters the graph (keys are decoded inline, not via the
queue). -/
theorem attr_keys_spec :
    (∀ (stepFn : PyObjectS → Queue → Memo → StepRes) (hs : Nat) (k v : PyObjectS)
       (es : List DictEntryT) (attrs : AttrMap) (q : Queue) (m : Memo)
       (e : PyError) (q' : Queue) (m' : Memo),
      stepFn k q m = some (.error e, q', m') →
      attrLoopF stepFn ((hs, k, v) :: es) attrs q m = some (.error e, q', m')) ∧
    (∀ (stepFn : PyObjectS → Queue → Memo → StepRes) (hs : Nat) (k v : PyObjectS)
       (es : List DictEntryT) (attrs : AttrMap) (q : Queue) (m : Memo)
       (d : DecodedR) (q' : Queue) (m' : Memo),
      stepFn k q m = some (.ok d, q', m') → (∀ s, d.objectData ≠ .Str s) →
      attrLoopF stepFn ((hs, k, v) :: es) attrs q m = attrLoopF stepFn es attrs q' m') ∧
    (∀ (stepFn : PyObjectS → Queue → Memo → StepRes) (hs : Nat) (k v : PyObjectS)
       (es : List DictEntryT) (attrs : AttrMap) (q : Queue) (m : Memo)
       (d : DecodedR) (s : List Nat) (q' : Queue) (m' : Memo),
      stepFn k q m = some (.ok d, q', m') → d.objectData = .Str s →
      attrLoopF stepFn ((hs, k, v) :: es) attrs q m =
        attrLoopF stepFn es ((s, v.me) :: attrs) (q' ++ [v]) m') ∧
    (walkF 0 100 memKeys 512).map
        (fun g => (lookupG g 512, lookupG g 1664, lookupG g 1024, lookupG g 1536,
          lookupG g 1280)) =
      some (some (.Object 256 nmZt [([97], 1664)]), some (.IntD 42), none, none, none) := by
  refine ⟨?_, ?_, ?_, by decide⟩
  · intro stepFn hs k v es attrs q m e q' m' hstep
    rw [show attrLoopF stepFn ((hs, k, v) :: es) attrs q m =
          attrStep (attrLoopF stepFn es) v attrs (stepFn k q m) from rfl, hstep]
    rfl
  · intro stepFn hs k v es attrs q m d q' m' hstep hne
    rw [show attrLoopF stepFn ((hs, k, v) :: es) attrs q m =
          attrStep (attrLoopF stepFn es) v attrs (stepFn k q m) from rfl, hstep]
    obtain ⟨od, tod, tp⟩ := d
    cases od <;> first | rfl | exact absurd rfl (hne _)
  · intro stepFn hs k v es attrs q m d s q' m' hstep hd
    rw [show attrLoopF stepFn ((hs, k, v) :: es) attrs q m =
          attrStep (attrLoopF stepFn es) v attrs (stepFn k q m) from rfl, hstep]
    simp [attrStep, hd]

/-- Witness for C8's amended theorem: a failing key decode aborts the loop
with its error. -/
theorem attr_keys_spec_witness :
    stepF 0 memNone 1 ⟨1, 0, 5⟩ [] [] = some (.error (.SegmentationFault "read"), [], []) ∧
    attrLoopF (stepF 0 memNone 1) [(0, ⟨1, 0, 5⟩, ⟨2, 0, 0⟩)] [] [] [] =
      some (.error (.SegmentationFault "read"), [], []) :=
  ⟨by decide,
   attr_keys_spec.1 (stepF 0 memNone 1) 0 ⟨1, 0, 5⟩ ⟨2, 0, 0⟩ [] [] [] []
     (.SegmentationFault "read") [] [] (by decide)⟩

/-- The element iterator under no address wrap-around and sufficient fuel:
it yields exactly `len` elements in index order, element k being the
independent read-word-then-dereference at base + 8k. -/
lemma itemsIter_no_wrap (mem : Mem) :
    ∀ (len base fl : Nat), base + len * 8 < U64 → len ≤ fl →
      itemsIterF mem fl base (base + len * 8) =
        some ((List.range len).map
          (fun k => (tryDerefPointer mem (base + 8 * k)).bind (tryDerefPyObject mem))) := by
  intro len
  induction len with
  | zero =>
    intro base fl _ _
    cases fl with
    | zero => simp [itemsIterF]
    | succ fl => simp [itemsIterF]
  | succ len ih =>
    intro base fl hlt hfl
    cases fl with
    | zero => omega
    | succ fl =>
      have hcond : base < base + (len + 1) * 8 := by omega
      have hwrap : wrap (base + 8) = base + 8 := Nat.mod_eq_of_lt (by omega)
      have hend : base + (len + 1) * 8 = (base + 8) + len * 8 := by ring
      have ih' := ih (base + 8) fl (by omega) (by omega)
      simp only [itemsIterF, if_pos hcond, hwrap]
      rw [hend, ih']
      simp only [Option.map_some']
      congr 1
      rw [List.range_succ_eq_map, List.map_cons, List.map_map]
      have hfun : ((fun k => (tryDerefPointer mem (base + 8 * k)).bind (tryDerefPyObject mem))
          ∘ Nat.succ) =
          fun k => (tryDerefPointer mem (base + 8 + 8 * k)).bind (tryDerefPyObject mem) := by
        funext k
        have hx : base + 8 * (k + 1) = base + 8 + 8 * k := by ring
        simp only [Function.comp_apply, hx]
      rw [hfun]
      norm_num

/-- The walker's take_while over a yielded sequence whose first error is at
position k keeps exactly the k elements before it. -/
lemma takeWhileOk_append_error :
    ∀ (os : List PyObjectS) (e : PyError) (rest : List (Except PyError PyObjectS)),
      takeWhileOk (os.map Except.ok ++ Except.error e :: rest) = os := by
  intro os e rest
  induction os with
  | nil => rfl
  | cons o os ih => simp [takeWhileOk, ih]

/-- The walker's take_while over an all-ok yielded sequence keeps all of
it. -/
lemma takeWhileOk_all_ok : ∀ os : List PyObjectS, takeWhileOk (os.map Except.ok) = os := by
  intro os
  induction os with
  | nil => rfl
  | cons o os ih => simp [takeWhileOk, ih]

/-- C7 — confirmed.  Tuple and list element enumeration yields one element
per index in ascending order, each an independent read (word at
items_base + 8k, then dereference) — first two conjuncts; the walker
consumes the sequence with take_while(is_ok), so a failure at element k
ends the enumeration at k, retaining exactly the elements at indices 0..k
(third and fourth conjuncts); the concrete run walks a 3-element tuple
whose element 2 is unreadable and retains exactly elements 0 and 1, both
decoded. -/
theorem items_lazy_spec :
    (∀ (mem : Mem) (t : PyTupleObjectS) (fl : Nat),
      t.me + obItemOffset + intToUsize t.obSize * 8 < U64 → intToUsize t.obSize ≤ fl →
      tupleItemsF mem fl t =
        some ((List.range (intToUsize t.obSize)).map
          (fun k => (tryDerefPointer mem (t.me + obItemOffset + 8 * k)).bind
            (tryDerefPyObject mem)))) ∧
    (∀ (mem : Mem) (l : PyListObjectS) (fl : Nat),
      l.obItem + intToUsize l.obSize * 8 < U64 → intToUsize l.obSize ≤ fl →
      listItemsF mem fl l =
        some ((List.range (intToUsize l.obSize)).map
          (fun k => (tryDerefPointer mem (l.obItem + 8 * k)).bind (tryDerefPyObject mem)))) ∧
    (∀ (os : List PyObjectS) (e : PyError) (rest : List (Except PyError PyObjectS)),
      takeWhileOk (os.map Except.ok ++ Except.error e :: rest) = os) ∧
    (∀ os : List PyObjectS, takeWhileOk (os.map Except.ok) = os) ∧
    (walkF 0 100 memTup 512).map (fun g => (lookupG g 512, lookupG g 768, lookupG g 832)) =
      some (some (.Tuple [768, 832]), some (.IntD 42), some (.IntD 7)) := by
  refine ⟨?_, ?_, takeWhileOk_append_error, takeWhileOk_all_ok, by decide⟩
  · intro mem t fl h1 h2
    have hb : wrap (t.me + obItemOffset) = t.me + obItemOffset := Nat.mod_eq_of_lt (by omega)
    have he : wrap (t.me + obItemOffset + intToUsize t.obSize * 8) =
        t.me + obItemOffset + intToUsize t.obSize * 8 := Nat.mod_eq_of_lt h1
    show itemsIterF mem fl (wrap (t.me + obItemOffset))
        (wrap (wrap (t.me + obItemOffset) + intToUsize t.obSize * 8)) = _
    rw [hb, he]
    exact itemsIter_no_wrap mem (intToUsize t.obSize) (t.me + obItemOffset) fl h1 h2
  · intro mem l fl h1 h2
    have he : wrap (l.obItem + intToUsize l.obSize * 8) =
        l.obItem + intToUsize l.obSize * 8 := Nat.mod_eq_of_lt h1
    show itemsIterF mem fl l.obItem (wrap (l.obItem + intToUsize l.obSize * 8)) = _
    rw [he]
    exact itemsIter_no_wrap mem (intToUsize l.obSize) l.obItem fl h1 h2

/-- Witness for C7 at the concrete 3-element tuple of memTup. -/
theorem items_lazy_spec_witness :
    (tupT.me + obItemOffset + intToUsize tupT.obSize * 8 < U64) ∧
    intToUsize tupT.obSize ≤ 3 ∧
    tupleItemsF memTup 3 tupT =
      some ((List.range (intToUsize tupT.obSize)).map
        (fun k => (tryDerefPointer memTup (tupT.me + obItemOffset + 8 * k)).bind
          (tryDerefPyObject memTup))) :=
  ⟨by decide, by decide, items_lazy_spec.1 memTup tupT 3 (by decide) (by decide)⟩

end CpyWalker
